import Mathlib

/-!
Verification of the canvas render-loop library (`src/index.ts`).

The file shallowly embeds the components the claims are about:

* the Clock / FPS aggregator (`dispatch`, lines 114-130 of the source);
* the renderer registry (`addRender` / `delRender`, lines 98-109), where the
  JavaScript `Array.prototype.sort` (stable, mandated by ES2019) with comparator
  `(lv > rv ? -1 : lv < rv ? 1 : 0)` is modelled by the stable
  `List.insertionSort` over the total preorder `rle a b := b.priority ≤ a.priority`
  (the unique stable-sort result for this comparator);
* the per-renderer lazy setup memoization cell (`memoInit`, the `initialize`
  closures at lines 132-143 and 257-268);
* one frame of the loop driver (`runFrame`, the `render` callback at
  lines 145-158), with renderer outcomes, the before/after hooks and the root
  setup abstracted as `Except` values;
* the coordinate helper `transform` (lines 287-301) over exact rationals;
* the argument destructuring of `useRender` (lines 252-255).

Timestamps are modelled as exact rationals; `Math.round` is `jround`
(`⌊x + 1/2⌋`, which agrees with JavaScript on all finite inputs) and
`Array.prototype.slice(-n)` is `jsSliceNeg`.
-/

/-! ### Clock / FPS aggregator -/

/-- The `Stat` record of the source: `frames` since the last sampling boundary,
`time` of that boundary, running `max` fps, and the fps history. -/
structure Stat where
  frames : ℕ
  time : ℚ
  max : ℤ
  fps : List ℤ
deriving DecidableEq

/-- JavaScript `Math.round`: round half towards positive infinity. -/
def jround (x : ℚ) : ℤ := ⌊x + 1 / 2⌋

/-- JavaScript `arr.slice(-n)`: the last `n` elements, except that `slice(-0)`
is `slice(0)`, the whole array. -/
def jsSliceNeg (l : List ℤ) (n : ℕ) : List ℤ :=
  if n = 0 then l else l.drop (l.length - n)

/-- The `dispatch` callback (source lines 114-130): called once per completed
frame with the current timestamp.  If strictly more than 1000ms elapsed since
`s.time`, it pushes `⌊(elapsed-1000)/1000⌋` zero backfill samples plus the
sample `max 1 (round (frames*1000/elapsed))`, truncates the history to its old
length from the front, takes `max` with the last new sample, and resets
`frames`/`time`; otherwise it only increments `frames`. -/
def dispatch (time : ℚ) (s : Stat) : Stat :=
  if s.time + 1000 < time then
    let fpsNew : List ℤ :=
      List.replicate (⌊(time - s.time - 1000) / 1000⌋).toNat 0 ++
        [max 1 (jround ((s.frames : ℚ) * 1000 / (time - s.time)))]
    { fps := jsSliceNeg (s.fps ++ fpsNew) s.fps.length
      max := max s.max (fpsNew.getLastD 0)
      time := time
      frames := 1 }
  else
    { s with frames := s.frames + 1 }

/-- A clock state at a sampling boundary `time = 0` with `frames = 10` and a
full default history (90 zero samples). -/
def statC1 : Stat := ⟨10, 0, 0, List.replicate 90 0⟩

/-- A clock state at a sampling boundary `time = 0` with `frames = 5`,
`max = 7`, and a full default history (90 zero samples). -/
def statC2 : Stat := ⟨5, 0, 7, List.replicate 90 0⟩

/-! ### Renderer registry -/

/-- A registered renderer: identity (reference identity of the JS function
object, modelled by `id`) together with its `priority`. -/
structure Render where
  id : ℕ
  priority : ℤ
deriving DecidableEq

/-- `rle a b` holds when the comparator
`(lv > rv ? -1 : lv < rv ? 1 : 0)` allows `a` to stay before `b`, i.e.
`cmp a b ≤ 0`, i.e. `b.priority ≤ a.priority` (descending priority). -/
def rle (a b : Render) : Prop := b.priority ≤ a.priority

instance : DecidableRel rle := fun a b => inferInstanceAs (Decidable (b.priority ≤ a.priority))

instance : IsTotal Render rle := ⟨fun a b => le_total b.priority a.priority⟩

instance : IsTrans Render rle := ⟨fun _ _ _ hab hbc => le_trans hbc hab⟩

/-- `addRender` (source lines 98-104): a no-op if the renderer is already
present, otherwise append it and stably sort by descending priority. -/
def addRender (r : Render) (renders : List Render) : List Render :=
  if r ∈ renders then renders
  else List.insertionSort rle (renders ++ [r])

/-- `delRender` (source lines 105-109): if present, remove the renderer,
keeping the order of the rest. -/
def delRender (r : Render) (renders : List Render) : List Render :=
  if r ∈ renders then renders.filter (fun it => decide (it ≠ r)) else renders

/-- A registry operation: register or unregister one renderer. -/
inductive RegOp where
  | add (r : Render)
  | del (r : Render)

/-- Apply one registry operation. -/
def applyOp (regs : List Render) : RegOp → List Render
  | .add r => addRender r regs
  | .del r => delRender r regs

/-- The registry after a sequence of operations, starting from empty. -/
def applyOps (ops : List RegOp) : List Render := ops.foldl applyOp []

/-- The specification-side registry that performs no sorting: members kept in
original insertion order (append on add, filter on del). -/
def naiveOp (regs : List Render) : RegOp → List Render
  | .add r => if r ∈ regs then regs else regs ++ [r]
  | .del r => if r ∈ regs then regs.filter (fun it => decide (it ≠ r)) else regs

/-- The insertion-ordered member list after a sequence of operations. -/
def insertionOrder (ops : List RegOp) : List Render := ops.foldl naiveOp []

/-- Invariant relating the real registry to the insertion-ordered member list:
same members, sorted by descending priority, and within each priority class the
registry order is exactly the insertion order. -/
def RegInv (regs inso : List Render) : Prop :=
  regs.Perm inso ∧ regs.Pairwise rle ∧
    ∀ p : ℤ, regs.filter (fun q => decide (q.priority = p)) =
      inso.filter (fun q => decide (q.priority = p))

/-! ### Lazy setup memoization -/

/-- The pair of captured variables of the `initialize` closures
(source lines 132-143 and 257-268): the `initialized` flag and the cached
`context` (a JS variable, `none` = `undefined`). -/
structure RCell (T : Type) where
  inited : Bool
  ctx : Option T
deriving DecidableEq

/-- The observable outcome of one `initialize` call: the returned (or thrown)
value, the updated captured state, and whether `setup` was invoked. -/
structure MemoOut (E T : Type) where
  result : Except E (Option T)
  cell : RCell T
  ranSetup : Bool

/-- One call of the memoizing `initialize` closure, with the awaited `setup`
outcome abstracted as `setupRes`.  If already initialized, the cached context
is returned and `setup` is skipped; otherwise `setup` is awaited: on success
the cache is filled, on rejection the exception propagates and neither
captured variable is assigned (the `initialized = true` line is not reached). -/
def memoInit (setupRes : Except E (Option T)) (c : RCell T) : MemoOut E T :=
  if c.inited then ⟨.ok c.ctx, c, false⟩
  else
    match setupRes with
    | .ok v => ⟨.ok v, ⟨true, v⟩, true⟩
    | .error e => ⟨.error e, c, true⟩

/-- `n` successive frames, each invoking the memoized `initialize` once.
Returns the final cell, the number of frames in which `setup` was invoked, and
the per-frame context outcome handed to `render`. -/
def runMemoFrames (setupRes : Except E (Option T)) :
    ℕ → RCell T → RCell T × ℕ × List (Except E (Option T))
  | 0, c => (c, 0, [])
  | n + 1, c =>
    let o := memoInit setupRes c
    let rest := runMemoFrames setupRes n o.cell
    (rest.1, (if o.ranSetup then 1 else 0) + rest.2.1, o.result :: rest.2.2)

/-! ### One frame of the loop driver -/

/-- Observable trace of one `render` frame (source lines 145-158): how many
renderers were invoked, which errors were caught and logged, whether the clock
tick (`dispatch()`) ran, whether the after-hook was invoked, and the frame's
own outcome. -/
structure FrameTrace (E : Type) where
  invoked : ℕ
  logged : List E
  ticked : Bool
  afterHookRan : Bool
  result : Except E Unit

/-- One iteration of the `for (let render of renders)` loop body: the renderer
is invoked (count incremented) inside `try`, and a thrown error is caught and
appended to the log. -/
def renderStep (acc : ℕ × List E) (r : Except E Unit) : ℕ × List E :=
  match r with
  | .ok _ => (acc.1 + 1, acc.2)
  | .error e => (acc.1 + 1, acc.2 ++ [e])

/-- The full renderer dispatch loop over the snapshot. -/
def renderLoop (renders : List (Except E Unit)) : ℕ × List E :=
  renders.foldl renderStep (0, [])

/-- The errors among a list of renderer outcomes, in order. -/
def errorsOf (renders : List (Except E Unit)) : List E :=
  renders.filterMap fun r => match r with | .error e => some e | .ok _ => none

/-- One frame of the loop driver (the `render` callback, source lines
145-158): early-return when no canvas is bound; the awaited root setup and the
before-hook propagate their failures, aborting the frame before the renderer
loop, the clock tick and the after-hook; each renderer runs in its own
`try/catch`; then `dispatch()` and the after-hook run. -/
def runFrame (hasCanvas : Bool) (setupRes beforeRes : Except E Unit)
    (renders : List (Except E Unit)) (afterRes : Except E Unit) : FrameTrace E :=
  if hasCanvas = false then ⟨0, [], false, false, Except.ok ()⟩
  else
    match setupRes with
    | .error e => ⟨0, [], false, false, .error e⟩
    | .ok _ =>
      match beforeRes with
      | .error e => ⟨0, [], false, false, .error e⟩
      | .ok _ =>
        let d := renderLoop renders
        ⟨d.1, d.2, true, true, afterRes⟩

/-! ### Coordinate transform -/

/-- A bounding client rect, with exact rational coordinates. -/
structure Rect where
  width : ℚ
  height : ℚ
  top : ℚ
  left : ℚ
deriving DecidableEq

/-- The projection mode argument of `transform`. -/
inductive TransformMode where
  | twoD
  | webgl
  | webgl2
deriving DecidableEq

/-- The `transform` helper (source lines 287-301): the 4×4 row-major matrix
mapping `target` onto `anchor`, with the translation doubled and the y axis
flipped outside `2d` mode. -/
def transform (target anchor : Rect) (mode : TransformMode) : List ℚ :=
  let sx := anchor.width / target.width
  let sy := anchor.height / target.height
  let sz : ℚ := 1
  let tx := (anchor.left + anchor.width / 2 - (target.left + target.width / 2)) / target.width
  let ty := (anchor.top + anchor.height / 2 - (target.top + target.height / 2)) / target.height
  let tz : ℚ := 0
  let tc : ℚ := if mode = .twoD then 1 else 2
  let yc : ℚ := if mode = .twoD then 1 else -1
  [sx, 0, 0, tx * tc, 0, sy, 0, ty * tc * yc, 0, 0, sz, tz * tc, 0, 0, 0, 1]

/-- The 4×4 identity matrix, row-major. -/
def identity16 : List ℚ := [1, 0, 0, 0, 0, 1, 0, 0, 0, 0, 1, 0, 0, 0, 0, 1]

/-! ### useRender argument destructuring -/

/-- A JavaScript argument value as far as `useRender`'s destructuring
observes it: a function (with an identity), a number, `undefined`, or `null`. -/
inductive JSVal where
  | fn (id : ℕ)
  | num (n : ℤ)
  | undef
  | nullv
deriving DecidableEq

/-- `typeof v == 'function'`. -/
def typeofFunction : JSVal → Bool
  | .fn _ => true
  | _ => false

/-- JavaScript truthiness of the modelled values. -/
def truthy : JSVal → Bool
  | .fn _ => true
  | .num n => decide (n ≠ 0)
  | .undef => false
  | .nullv => false

/-- JavaScript `a || b`. -/
def jsOr (a b : JSVal) : JSVal := if truthy a then a else b

/-- The `[setup, renderer, priority]` triple produced by `useRender`'s
argument destructuring; `priority` is later attached to the registered
render function. -/
structure UseRenderArgs where
  setup : JSVal
  renderer : JSVal
  priority : JSVal
deriving DecidableEq

/-- The destructuring at source lines 252-255:
`[setup, renderer, priority] = t1 == 'function' ? [a0, a1, a2 || 0] : [null, a0, a1 || 0]`. -/
def useRenderParse (argv : List JSVal) : UseRenderArgs :=
  let a0 := argv.getD 0 .undef
  let a1 := argv.getD 1 .undef
  let a2 := argv.getD 2 .undef
  if typeofFunction a1 then ⟨a0, a1, jsOr a2 (.num 0)⟩ else ⟨.nullv, a0, jsOr a1 (.num 0)⟩

/-! ### Helper lemmas -/

theorem runMemoFrames_inited {E T : Type} (setupRes : Except E (Option T)) :
    ∀ (n : ℕ) (v : Option T),
      runMemoFrames setupRes n ⟨true, v⟩ = (⟨true, v⟩, 0, List.replicate n (Except.ok v))
  | 0, v => rfl
  | n + 1, v => by
    simp [runMemoFrames, memoInit, runMemoFrames_inited setupRes n v, List.replicate]

theorem renderLoop_spec {E : Type} (renders : List (Except E Unit)) :
    renderLoop renders = (renders.length, errorsOf renders) := by
  have h : ∀ (l : List (Except E Unit)) (k : ℕ) (acc : List E),
      l.foldl renderStep (k, acc) = (k + l.length, acc ++ errorsOf l) := by
    intro l
    induction l with
    | nil => intro k acc; simp [errorsOf]
    | cons r l ih =>
      intro k acc
      cases r with
      | ok u =>
        rw [List.foldl_cons]
        show List.foldl renderStep (k + 1, acc) l = _
        rw [ih]
        simp [errorsOf, List.filterMap_cons]
        omega
      | error e =>
        rw [List.foldl_cons]
        show List.foldl renderStep (k + 1, acc ++ [e]) l = _
        rw [ih]
        simp [errorsOf, List.filterMap_cons]
        omega
  have := h renders 0 []
  simpa [renderLoop] using this

/-! ### Claim theorems -/

/-- C3: for a renderer instance that stays the same across `n ≥ 1` frames with
a successfully resolving setup, `setup` is invoked exactly once — the first
frame caches the resolved value and every later frame skips setup and hands
the cached value to `render`. -/
theorem C3_setup_once (E T : Type) (v : Option T) (n : ℕ) (hn : 1 ≤ n) :
    runMemoFrames (Except.ok v : Except E (Option T)) n ⟨false, none⟩ =
      (⟨true, v⟩, 1, List.replicate n (Except.ok v)) := by
  obtain ⟨m, rfl⟩ : ∃ m, n = m + 1 := ⟨n - 1, (Nat.succ_pred_eq_of_pos hn).symm⟩
  simp [runMemoFrames, memoInit, runMemoFrames_inited, List.replicate]

/-- C3 witness: three frames with setup resolving to `some 5` run setup once
and hand `some 5` to `render` in every frame. -/
theorem C3_setup_once_witness :
    runMemoFrames (Except.ok (some 5) : Except ℕ (Option ℕ)) 3 ⟨false, none⟩ =
      (⟨true, some 5⟩, 1, List.replicate 3 (Except.ok (some 5))) :=
  C3_setup_once ℕ ℕ (some 5) 3 (by norm_num)

/-- C4: if the memoized setup rejects, the failure propagates to the caller,
neither captured variable is assigned (the cell stays uninitialized), and the
next invocation runs setup again instead of returning a cached value. -/
theorem C4_setup_failure_retry (E T : Type) (e : E) (s2 : Except E (Option T)) :
    memoInit (Except.error e) (⟨false, none⟩ : RCell T) = ⟨Except.error e, ⟨false, none⟩, true⟩
    ∧ (memoInit s2 (memoInit (Except.error e) (⟨false, none⟩ : RCell T)).cell).ranSetup = true := by
  refine ⟨rfl, ?_⟩
  cases s2 <;> rfl

/-- C5: when the root setup and the before-hook succeed, a renderer that
throws has its error caught and logged, every renderer in the snapshot is
still invoked, and the frame still reaches the clock tick and the after-hook
(whose outcome becomes the frame's result). -/
theorem C5_renderer_isolation (E : Type) (renders : List (Except E Unit))
    (afterRes : Except E Unit) (i : ℕ) (e : E)
    (h : renders[i]? = some (Except.error e)) :
    (runFrame true (Except.ok ()) (Except.ok ()) renders afterRes).invoked = renders.length
    ∧ e ∈ (runFrame true (Except.ok ()) (Except.ok ()) renders afterRes).logged
    ∧ (runFrame true (Except.ok ()) (Except.ok ()) renders afterRes).ticked = true
    ∧ (runFrame true (Except.ok ()) (Except.ok ()) renders afterRes).afterHookRan = true
    ∧ (runFrame true (Except.ok ()) (Except.ok ()) renders afterRes).result = afterRes := by
  have hmem : Except.error e ∈ renders := by
    have := List.getElem?_eq_some_iff.mp h
    obtain ⟨hlt, hget⟩ := this
    exact hget ▸ List.getElem_mem hlt
  have hlog : e ∈ errorsOf renders :=
    List.mem_filterMap.mpr ⟨Except.error e, hmem, rfl⟩
  simp [runFrame, renderLoop_spec, hlog]

/-- C5 witness: with three renderers of which the second throws `7`, all three
are invoked, `7` is logged, and the tick and after-hook still run. -/
theorem C5_renderer_isolation_witness :
    (runFrame true (Except.ok ()) (Except.ok ())
        [Except.ok (), Except.error 7, Except.ok ()] (Except.ok ())).invoked = 3
    ∧ 7 ∈ (runFrame true (Except.ok ()) (Except.ok ())
        [Except.ok (), Except.error 7, Except.ok ()] (Except.ok ())).logged
    ∧ (runFrame true (Except.ok ()) (Except.ok ())
        [Except.ok (), Except.error 7, Except.ok ()] (Except.ok ())).ticked = true
    ∧ (runFrame true (Except.ok ()) (Except.ok ())
        [Except.ok (), Except.error 7, Except.ok ()] (Except.ok ())).afterHookRan = true
    ∧ (runFrame true (Except.ok ()) (Except.ok ())
        [Except.ok (), Except.error 7, Except.ok ()] (Except.ok ())).result = Except.ok () :=
  C5_renderer_isolation ℕ [Except.ok (), Except.error 7, Except.ok ()] (Except.ok ()) 1 7 rfl

/-- C6: a throwing before-hook aborts the frame: no renderer is invoked, the
clock is not ticked, and the after-hook does not run. -/
theorem C6_before_abort (E : Type) (e : E) (renders : List (Except E Unit))
    (afterRes : Except E Unit) :
    runFrame true (Except.ok ()) (Except.error e) renders afterRes =
      ⟨0, [], false, false, Except.error e⟩ := rfl

/-- C8: registering a renderer that is already present leaves the registry
unchanged, and registering the same instance twice starting from an empty
registry yields a registry of size 1. -/
theorem C8_idempotent (r : Render) (regs : List Render) (h : r ∈ regs) :
    addRender r regs = regs ∧ (addRender r (addRender r [])).length = 1 := by
  constructor
  · simp [addRender, h]
  · simp [addRender]

/-- C8 witness at a concrete renderer. -/
theorem C8_idempotent_witness :
    addRender ⟨0, 5⟩ [⟨0, 5⟩] = [⟨0, 5⟩]
    ∧ (addRender ⟨0, 5⟩ (addRender ⟨0, 5⟩ [])).length = 1 :=
  C8_idempotent ⟨0, 5⟩ [⟨0, 5⟩] (by decide)

/-- C9 counterexample: for the degenerate (but reachable) bounding rectangle
of width 0 and height 0, `transform` of two identical rectangles in `2d` mode
is not the identity matrix — the scale entries are `0/0`, not `1` (in
JavaScript they are `NaN`), so the claim fails as universally stated. -/
theorem C9_counterexample :
    transform ⟨0, 0, 0, 0⟩ ⟨0, 0, 0, 0⟩ TransformMode.twoD ≠ identity16 := by
  simp [transform, identity16]

/-- C9 amended: for identical rectangles of nonzero width and height,
`transform` in `2d` mode returns the identity matrix. -/
theorem C9_identity (rect : Rect) (hw : rect.width ≠ 0) (hh : rect.height ≠ 0) :
    transform rect rect TransformMode.twoD = identity16 := by
  simp [transform, identity16, div_self hw, div_self hh]

/-- C9 witness at a concrete nonzero rectangle. -/
theorem C9_identity_witness :
    transform ⟨2, 3, 4, 5⟩ ⟨2, 3, 4, 5⟩ TransformMode.twoD = identity16 :=
  C9_identity ⟨2, 3, 4, 5⟩ (by norm_num) (by norm_num)

/-- C10: both `useRender` forms that omit the priority argument — the
render-only form and the setup-plus-render form — destructure to priority `0`
(and pick the right argument as the renderer). -/
theorem C10_default_priority (r s : ℕ) :
    (useRenderParse [JSVal.fn r]).priority = JSVal.num 0
    ∧ (useRenderParse [JSVal.fn r]).renderer = JSVal.fn r
    ∧ (useRenderParse [JSVal.fn s, JSVal.fn r]).priority = JSVal.num 0
    ∧ (useRenderParse [JSVal.fn s, JSVal.fn r]).renderer = JSVal.fn r :=
  ⟨rfl, rfl, rfl, rfl⟩

/-- C1 counterexample: with `frames = 10` and `time = T = 0`, a tick at exactly
`T + 1000` does not sample: the code's window test is strict
(`time > stat.time + 1000`), so the tick only increments `frames` to 11 and
leaves `time` at `T`, contradicting the claimed sample/reset at exactly
`T + 1000`. -/
theorem C1_counterexample :
    ¬((dispatch 1000 statC1).frames = 1 ∧ (dispatch 1000 statC1).time = 1000) := by
  norm_num [dispatch, statC1]

/-- C1 amended: the sampling window test is strict (`time > stat.time + 1000`),
so a tick at exactly `T + 1000` only increments `frames` (see the
counterexample); a tick strictly after the window, e.g. at `T + 1001`, produces
the fps sample `round(10 * 1000 / 1001) = 10`, evicts the oldest history entry
keeping the length at 90, updates `max` with the sample, resets `frames` to 1
and sets `time` to the tick timestamp. -/
theorem C1_amended_holds (T : ℚ) (s : Stat) (hf : s.frames = 10) (ht : s.time = T)
    (hl : s.fps.length = 90) :
    dispatch (T + 1001) s =
      { frames := 1, time := T + 1001, max := max s.max 10, fps := s.fps.drop 1 ++ [10] }
    ∧ (dispatch (T + 1001) s).fps.length = s.fps.length := by
  have hback : (⌊((T + 1001 : ℚ) - T - 1000) / 1000⌋ : ℤ) = 0 := by
    have h1 : ((T + 1001 : ℚ) - T - 1000) / 1000 = 1 / 1000 := by ring
    rw [h1, Int.floor_eq_zero_iff, Set.mem_Ico]
    constructor <;> norm_num
  have hsample : max 1 (jround (((10 : ℕ) : ℚ) * 1000 / (T + 1001 - T))) = 10 := by
    have h2 : (T + 1001 - T : ℚ) = 1001 := by ring
    have h3 : jround (((10 : ℕ) : ℚ) * 1000 / 1001) = 10 := by
      rw [jround, Int.floor_eq_iff]
      constructor <;> norm_num
    rw [h2, h3]
    norm_num
  have hslice : jsSliceNeg (s.fps ++ [(10 : ℤ)]) 90 = s.fps.drop 1 ++ [10] := by
    have h90 : (s.fps ++ [(10 : ℤ)]).length - 90 = 1 := by
      simp [List.length_append, hl]
    rw [jsSliceNeg, if_neg (by norm_num), h90,
      List.drop_append_of_le_length (by omega : 1 ≤ s.fps.length)]
  have hmain : dispatch (T + 1001) s =
      { frames := 1, time := T + 1001, max := max s.max 10, fps := s.fps.drop 1 ++ [10] } := by
    simp only [dispatch, ht, hf, hl]
    rw [if_pos (by linarith)]
    rw [hback]
    simp only [Int.toNat_zero, List.replicate_zero, List.nil_append, hsample]
    simp [hslice, List.getLastD]
  refine ⟨hmain, ?_⟩
  rw [hmain]
  simp [hl]

/-- C2: a tick 3500ms after the boundary with `frames = 5` appends exactly
three samples — zeros for the two fully-skipped windows, then
`max 1 (round (5 * 1000 / 3500)) = 1` — evicting three from the front of the
full history, and updates `max` only if the computed value exceeds the prior
maximum; `frames` resets to 1 and `time` becomes the tick timestamp. -/
theorem C2_backfill (T : ℚ) (s : Stat) (hf : s.frames = 5) (ht : s.time = T)
    (hl : s.fps.length = 90) :
    max 1 (jround ((5 : ℚ) * 1000 / 3500)) = 1
    ∧ (dispatch (T + 3500) s).fps = s.fps.drop 3 ++ [0, 0, max 1 (jround ((5 : ℚ) * 1000 / 3500))]
    ∧ (dispatch (T + 3500) s).fps.length = s.fps.length
    ∧ (dispatch (T + 3500) s).max =
        (if s.max < max 1 (jround ((5 : ℚ) * 1000 / 3500))
          then max 1 (jround ((5 : ℚ) * 1000 / 3500)) else s.max)
    ∧ (dispatch (T + 3500) s).frames = 1
    ∧ (dispatch (T + 3500) s).time = T + 3500 := by
  have hv : max 1 (jround ((5 : ℚ) * 1000 / 3500)) = 1 := by
    have h3 : jround ((5 : ℚ) * 1000 / 3500) = 1 := by
      rw [jround, Int.floor_eq_iff]
      constructor <;> norm_num
    rw [h3]
    norm_num
  have hback : (⌊((T + 3500 : ℚ) - T - 1000) / 1000⌋ : ℤ) = 2 := by
    have h1 : ((T + 3500 : ℚ) - T - 1000) / 1000 = 5 / 2 := by ring
    rw [h1, Int.floor_eq_iff]
    constructor <;> norm_num
  have hsample : max 1 (jround (((5 : ℕ) : ℚ) * 1000 / (T + 3500 - T))) = 1 := by
    have h2 : (T + 3500 - T : ℚ) = 3500 := by ring
    rw [h2]
    have : ((5 : ℕ) : ℚ) * 1000 / 3500 = (5 : ℚ) * 1000 / 3500 := by norm_num
    rw [this, hv]
  have hslice : jsSliceNeg (s.fps ++ [(0 : ℤ), 0, 1]) 90 = s.fps.drop 3 ++ [0, 0, 1] := by
    have h90 : (s.fps ++ [(0 : ℤ), 0, 1]).length - 90 = 3 := by
      simp [List.length_append, hl]
    rw [jsSliceNeg, if_neg (by norm_num), h90,
      List.drop_append_of_le_length (by omega : 3 ≤ s.fps.length)]
  have hmain : dispatch (T + 3500) s =
      { frames := 1, time := T + 3500, max := max s.max 1, fps := s.fps.drop 3 ++ [0, 0, 1] } := by
    simp only [dispatch, ht, hf, hl]
    rw [if_pos (by linarith)]
    rw [hback]
    simp only [hsample]
    norm_num
    simp [hslice, List.getLastD]
  have hmax : max s.max (1 : ℤ) = if s.max < 1 then 1 else s.max := by
    by_cases h : s.max < 1
    · simp [h]
      omega
    · simp [h]
      omega
  refine ⟨hv, ?_, ?_, ?_, ?_, ?_⟩ <;> rw [hmain] <;> simp [hv, hmax, hl]

/-- C1 amended witness at the concrete clock state `statC1`. -/
theorem C1_amended_holds_witness :
    dispatch (0 + 1001) statC1 =
      { frames := 1, time := 0 + 1001, max := max statC1.max 10, fps := statC1.fps.drop 1 ++ [10] }
    ∧ (dispatch (0 + 1001) statC1).fps.length = statC1.fps.length :=
  C1_amended_holds 0 statC1 rfl rfl rfl

/-- C2 witness at the concrete clock state `statC2` (prior max 7, so the new
sample 1 does not update it). -/
theorem C2_backfill_witness :
    max 1 (jround ((5 : ℚ) * 1000 / 3500)) = 1
    ∧ (dispatch (0 + 3500) statC2).fps =
        statC2.fps.drop 3 ++ [0, 0, max 1 (jround ((5 : ℚ) * 1000 / 3500))]
    ∧ (dispatch (0 + 3500) statC2).fps.length = statC2.fps.length
    ∧ (dispatch (0 + 3500) statC2).max =
        (if statC2.max < max 1 (jround ((5 : ℚ) * 1000 / 3500))
          then max 1 (jround ((5 : ℚ) * 1000 / 3500)) else statC2.max)
    ∧ (dispatch (0 + 3500) statC2).frames = 1
    ∧ (dispatch (0 + 3500) statC2).time = 0 + 3500 :=
  C2_backfill 0 statC2 rfl rfl rfl

theorem filter_prio_insertionSort (p : ℤ) (xs : List Render) :
    (List.insertionSort rle xs).filter (fun q => decide (q.priority = p)) =
      xs.filter (fun q => decide (q.priority = p)) := by
  have hc : List.Sublist (xs.filter (fun q => decide (q.priority = p))) xs :=
    List.filter_sublist xs
  have hall : ∀ q ∈ xs.filter (fun q => decide (q.priority = p)), q.priority = p := by
    intro q hq
    simpa using (List.mem_filter.mp hq).2
  have hpw : (xs.filter (fun q => decide (q.priority = p))).Pairwise rle := by
    apply List.pairwise_of_forall_mem_list
    intro a ha b hb
    show b.priority ≤ a.priority
    rw [hall a ha, hall b hb]
  have hsub : List.Sublist (xs.filter (fun q => decide (q.priority = p)))
      (List.insertionSort rle xs) :=
    List.sublist_insertionSort hpw hc
  have hperm : List.Perm
      ((List.insertionSort rle xs).filter (fun q => decide (q.priority = p)))
      (xs.filter (fun q => decide (q.priority = p))) :=
    (List.perm_insertionSort rle xs).filter _
  have hsub2 : List.Sublist (xs.filter (fun q => decide (q.priority = p)))
      ((List.insertionSort rle xs).filter (fun q => decide (q.priority = p))) := by
    have h1 := hsub.filter (fun q => decide (q.priority = p))
    rwa [List.filter_eq_self.mpr (fun a ha => (List.mem_filter.mp ha).2)] at h1
  exact (hsub2.eq_of_length hperm.length_eq.symm).symm

theorem regInv_applyOp {regs inso : List Render} (h : RegInv regs inso) (op : RegOp) :
    RegInv (applyOp regs op) (naiveOp inso op) := by
  obtain ⟨hperm, hsort, hfilter⟩ := h
  cases op with
  | add r =>
    by_cases hmem : r ∈ regs
    · have hmem' : r ∈ inso := hperm.mem_iff.mp hmem
      simp only [applyOp, addRender, naiveOp, if_pos hmem, if_pos hmem']
      exact ⟨hperm, hsort, hfilter⟩
    · have hmem' : r ∉ inso := fun hx => hmem (hperm.mem_iff.mpr hx)
      simp only [applyOp, addRender, naiveOp, if_neg hmem, if_neg hmem']
      refine ⟨?_, ?_, ?_⟩
      · exact (List.perm_insertionSort rle _).trans (hperm.append_right [r])
      · exact List.sorted_insertionSort rle _
      · intro p
        rw [filter_prio_insertionSort, List.filter_append, List.filter_append, hfilter p]
  | del r =>
    by_cases hmem : r ∈ regs
    · have hmem' : r ∈ inso := hperm.mem_iff.mp hmem
      simp only [applyOp, delRender, naiveOp, if_pos hmem, if_pos hmem']
      refine ⟨hperm.filter _, List.Pairwise.sublist (List.filter_sublist _) hsort, ?_⟩
      intro p
      rw [List.filter_comm, List.filter_comm _ _ inso, hfilter p]
    · have hmem' : r ∉ inso := fun hx => hmem (hperm.mem_iff.mpr hx)
      simp only [applyOp, delRender, naiveOp, if_neg hmem, if_neg hmem']
      exact ⟨hperm, hsort, hfilter⟩

theorem regInv_foldl (ops : List RegOp) :
    ∀ regs inso, RegInv regs inso → RegInv (ops.foldl applyOp regs) (ops.foldl naiveOp inso) := by
  induction ops with
  | nil => intro regs inso h; exact h
  | cons op ops ih =>
    intro regs inso h
    exact ih _ _ (regInv_applyOp h op)

/-- C7: after any sequence of register/unregister operations the registry is
sorted in non-increasing priority order, and restricted to any single priority
the registry lists exactly the (still registered) renderers in their original
insertion order. -/
theorem C7_registry_order (ops : List RegOp) :
    (applyOps ops).Pairwise (fun a b => b.priority ≤ a.priority)
    ∧ ∀ p : ℤ, (applyOps ops).filter (fun q => decide (q.priority = p)) =
        (insertionOrder ops).filter (fun q => decide (q.priority = p)) := by
  have h := regInv_foldl ops [] [] ⟨List.Perm.refl _, List.Pairwise.nil, fun _ => rfl⟩
  exact ⟨h.2.1, h.2.2⟩
